import Mathlib

/-!
Verification of the Soledad core: the key-lifecycle manager (`src/__init__.py`,
class `Soledad`) and the serialized store proxy
(`src/src/leap/soledad/dbwrapper.py`, class `SQLCipherWrapper`).

The Python source is shallowly embedded below.  Pure helpers become Lean
functions; methods that mutate the instance or the filesystem become functions
from an explicit state to `Except PyErr _ × State` (the state is returned on
the error path as well, mirroring the fact that a Python exception leaves
already-performed side effects in place).  The external collaborators that are
not part of this repository (the GPG crypto provider `GPGWrapper` from
`leap.soledad.util`, the stdlib `hmac` module, and the sqlcipher store) are
modelled from the spec as capabilities: asymmetric/symmetric encryption is a
constructor-tagged blob, HMAC is a deterministic derivation, and the store is
an arbitrary name-to-attribute table.
-/

/-- Python exception values raised by the embedded code.  Exception message
texts are elided; only the exception class (and, for attribute/name errors,
the offending name) is kept, which is what the claims distinguish. -/
inductive PyErr where
  | keyDoesNotExist
  | keyAlreadyExists
  | documentNotEncrypted
  | attributeError (name : String)
  | nameError (name : String)
  | ioError
  | typeError
  | pyExc (msg : String)
deriving DecidableEq, Repr

/-- Modelled from the spec: ciphertext produced by the external crypto
provider (`GPGWrapper`, in `leap.soledad.util`, not under `src/`).  The spec
describes it as a capability whose `classify` distinguishes plaintext,
symmetric and asymmetric ciphertext, and which reports the fingerprint an
asymmetric ciphertext is encrypted to. -/
inductive Blob where
  | plain (s : String)
  | sym (pass : String) (payload : String)
  | asym (fp : String) (payload : String)
deriving DecidableEq, Repr

/-- Modelled from the spec: `GPGWrapper.decrypt`.  An asymmetric blob decrypts
when we hold the key it is encrypted to; a symmetric blob decrypts when the
supplied passphrase matches; plaintext does not decrypt.  `none` models a
failed decryption. -/
def gpgDecrypt (owned : List String) (passphrase : Option String) (b : Blob) :
    Option String :=
  match b with
  | Blob.plain _ => none
  | Blob.sym p payload => if passphrase = some p then some payload else none
  | Blob.asym fp payload => if owned.contains fp then some payload else none

/-- Modelled from the spec: the stdlib `hmac.new(key, msg).hexdigest()` used
by `Soledad._hmac_passphrase`.  The spec relies only on the derivation being
deterministic in `(key, msg)`, which any concrete function provides. -/
def hmacHex (key msg : String) : String :=
  "hmac:" ++ key ++ ":" ++ msg

/-- Filesystem read: the contents stored at a path, if the file exists. -/
def fsRead (fs : List (String × Blob)) (p : String) : Option Blob :=
  match fs with
  | [] => none
  | (q, b) :: rest => if q = p then some b else fsRead rest p

/-- Filesystem write: create or overwrite the file at a path. -/
def fsWrite (fs : List (String × Blob)) (p : String) (b : Blob) :
    List (String × Blob) :=
  match fs with
  | [] => [(p, b)]
  | (q, c) :: rest => if q = p then (p, b) :: rest else (q, c) :: fsWrite rest p b

/-- Modelled from the spec: `GPGWrapper.find_key_by_email` over the keyring,
a list of (email, fingerprint) pairs for keys whose secret part we hold.
`none` models the `LookupError` the source catches. -/
def findKeyByEmail (kr : List (String × String)) (email : String) :
    Option String :=
  match kr with
  | [] => none
  | (e, fp) :: rest => if e = email then some fp else findKeyByEmail rest email

/-- State of a `Soledad` instance together with its environment: the GPG
keyring, the filesystem, the remote escrow service, and instrumentation
counters (the collaborator spy of the spec's end-to-end scenarios).
`fingerprint`/`secret` are `none` while the corresponding Python instance
attribute is unset (attribute access then raises `AttributeError`).
`rand` models the stream of draws `random.choice` makes in `_gen_secret`;
`remoteOk` models whether the remote GET in `_retrieve_keys` succeeds. -/
structure SoledadState where
  userEmail : String
  keyring : List (String × String)
  files : List (String × Blob)
  secretPath : String
  fingerprint : Option String
  secret : Option String
  fpCounter : Nat
  retrieveKeysCalls : Nat
  genKeypairCalls : Nat
  genSecretCalls : Nat
  dbOpened : Bool
  remoteOk : Bool
  rand : Nat → Nat

/-- Sequencing of two stateful steps: the second runs only if the first did
not raise (Python statement sequencing). -/
def seqS (r : Except PyErr Unit × SoledadState)
    (f : SoledadState → Except PyErr Unit × SoledadState) :
    Except PyErr Unit × SoledadState :=
  match r with
  | (Except.ok _, st) => f st
  | (Except.error e, st) => (Except.error e, st)

/-- Fingerprints of all keys held in the keyring (keys we can decrypt with). -/
def ownedFps (st : SoledadState) : List String :=
  st.keyring.map Prod.snd

/-- Embeds `Soledad._has_openpgp_keypair`: `find_key_by_email(email,
secret=True)` returns a key or raises `LookupError`, which the source turns
into `False`. -/
def hasOpenpgpKeypair (st : SoledadState) : Bool :=
  (findKeyByEmail st.keyring st.userEmail).isSome

/-- Embeds `Soledad._has_secret`.  In source order: if the file at
`secret_path` does not exist, return `False`; if its content is not
asymmetrically encrypted, raise `DocumentNotEncrypted`; then compare the
fingerprint the blob is encrypted to against `self._fingerprint` (an
`AttributeError` if that attribute was never set), raising `KeyDoesNotExist`
on mismatch; otherwise return `True`. -/
def hasSecret (st : SoledadState) : Except PyErr Bool :=
  match fsRead st.files st.secretPath with
  | none => Except.ok false
  | some (Blob.asym fp _) =>
    match st.fingerprint with
    | none => Except.error (PyErr.attributeError "_fingerprint")
    | some myFp =>
      if fp ≠ myFp then Except.error PyErr.keyDoesNotExist else Except.ok true
  | some _ => Except.error PyErr.documentNotEncrypted

/-- Embeds `Soledad._load_secret`: raise `KeyDoesNotExist` if `_has_secret()`
is false (propagating any exception it raises), then read the file and store
`str(self._gpg.decrypt(...))` in `self._secret` (Python `str` of a failed
decryption is the empty string, hence `Option.getD ""`). -/
def loadSecret (st : SoledadState) : Except PyErr Unit × SoledadState :=
  match hasSecret st with
  | Except.error e => (Except.error e, st)
  | Except.ok false => (Except.error PyErr.keyDoesNotExist, st)
  | Except.ok true =>
    match fsRead st.files st.secretPath with
    | none => (Except.error PyErr.ioError, st)
    | some b =>
      (Except.ok (),
       { st with secret := some ((gpgDecrypt (ownedFps st) none b).getD "") })

/-- Alphanumeric alphabet `string.ascii_letters + string.digits` from which
`_gen_secret` draws. -/
def secretAlphabet : List Char :=
  "abcdefghijklmnopqrstuvwxyzABCDEFGHIJKLMNOPQRSTUVWXYZ0123456789".data

/-- Secret length constant `Soledad.SECRET_LENGTH`. -/
def SECRET_LENGTH : Nat := 50

/-- Embeds the secret drawn by `_gen_secret`: 50 independent `random.choice`
draws from the alphanumeric alphabet, with `rand` supplying the randomness. -/
def freshSecretStr (rand : Nat → Nat) : String :=
  String.mk ((List.range SECRET_LENGTH).map
    (fun i => secretAlphabet.getD (rand i % secretAlphabet.length) 'a'))

/-- Embeds `Soledad._gen_secret`.  In source order: `_has_secret()` (its
exceptions propagate); raise `KeyAlreadyExists` when it returns true; draw
`self._secret`; encrypt it to `self._fingerprint` (an `AttributeError` when
unset); write the ciphertext to `secret_path`.  The call counter models the
collaborator spy of the spec's scenarios and is bumped on entry. -/
def genSecret (st0 : SoledadState) : Except PyErr Unit × SoledadState :=
  let st := { st0 with genSecretCalls := st0.genSecretCalls + 1 }
  match hasSecret st with
  | Except.error e => (Except.error e, st)
  | Except.ok true => (Except.error PyErr.keyAlreadyExists, st)
  | Except.ok false =>
    let s := freshSecretStr st.rand
    let st1 := { st with secret := some s }
    match st1.fingerprint with
    | none => (Except.error (PyErr.attributeError "_fingerprint"), st1)
    | some fp =>
      (Except.ok (),
       { st1 with files := fsWrite st1.files st1.secretPath (Blob.asym fp s) })

/-- Fingerprint assigned by the modelled `gpg.gen_key` to the n-th generated
keypair (the crypto provider guarantees a fresh fingerprint per keypair). -/
def freshFp (n : Nat) : String :=
  "GENFP" ++ toString n

/-- Embeds `Soledad._gen_openpgp_keypair`: raise `KeyAlreadyExists` when a
keypair for the user is already present, otherwise have the crypto provider
generate one bound to the user email.  Counter bumped on entry (spy). -/
def genOpenpgpKeypair (st0 : SoledadState) : Except PyErr Unit × SoledadState :=
  let st := { st0 with genKeypairCalls := st0.genKeypairCalls + 1 }
  if hasOpenpgpKeypair st then (Except.error PyErr.keyAlreadyExists, st)
  else
    (Except.ok (),
     { st with keyring := st.keyring ++ [(st.userEmail, freshFp st.fpCounter)],
               fpCounter := st.fpCounter + 1 })

/-- Embeds `Soledad._load_openpgp_keypair`: raise `KeyDoesNotExist` when no
keypair exists, otherwise cache the fingerprint found for the user email. -/
def loadOpenpgpKeypair (st : SoledadState) : Except PyErr Unit × SoledadState :=
  match findKeyByEmail st.keyring st.userEmail with
  | none => (Except.error PyErr.keyDoesNotExist, st)
  | some fp => (Except.ok (), { st with fingerprint := some fp })

/-- Embeds `Soledad._has_keys`: `self._has_openpgp_keypair() and
self._has_secret()` with Python short-circuiting, so `_has_secret` (and any
exception it raises) is reached only when a keypair exists. -/
def hasKeys (st : SoledadState) : Except PyErr Bool :=
  if hasOpenpgpKeypair st then hasSecret st else Except.ok false

/-- Embeds `Soledad._load_keys`: load the keypair fingerprint, then the
secret. -/
def loadKeys (st : SoledadState) : Except PyErr Unit × SoledadState :=
  seqS (loadOpenpgpKeypair st) loadSecret

/-- Embeds `Soledad._retrieve_keys`: a GET against the escrow service for the
HMAC-derived per-identity key.  Any exception along the way (missing
`_client` attribute, network failure, server error) is modelled by
`remoteOk = false`; on success the source persists nothing (it only issues
the GET).  Counter bumped on entry (spy). -/
def retrieveKeys (st0 : SoledadState) : Except PyErr Unit × SoledadState :=
  let st := { st0 with retrieveKeysCalls := st0.retrieveKeysCalls + 1 }
  if st.remoteOk then (Except.ok (), st)
  else (Except.error (PyErr.pyExc "remote fetch failed"), st)

/-- Embeds `Soledad._init_keys`: generate the keypair when absent, load it,
generate the secret when absent (exceptions of `_has_secret` propagate), load
the secret. -/
def initKeys (st : SoledadState) : Except PyErr Unit × SoledadState :=
  seqS (if hasOpenpgpKeypair st then (Except.ok (), st) else genOpenpgpKeypair st)
    fun st1 =>
      seqS (loadOpenpgpKeypair st1) fun st2 =>
        match hasSecret st2 with
        | Except.error e => (Except.error e, st2)
        | Except.ok b =>
          seqS (if b then (Except.ok (), st2) else genSecret st2) loadSecret

/-- Method and attribute names defined on the `Soledad` class in
`src/__init__.py` (class constants and methods, in source order).  Looking up
any other name on an instance raises `AttributeError`. -/
def soledadMethodNames : List String :=
  ["SECRET_LENGTH", "DEFAULT_CONF", "__init__", "_bootstrap", "_init_config",
   "_init_dirs", "_init_keys", "_init_db", "close", "_has_secret",
   "_load_secret", "_gen_secret", "_has_openpgp_keypair",
   "_gen_openpgp_keypair", "_load_openpgp_keypair", "publish_pubkey",
   "_has_keys", "_load_keys", "_gen_keys", "_retrieve_keys", "encrypt",
   "encrypt_symmetric", "decrypt", "decrypt_symmetric", "_hmac_passphrase",
   "is_encrypted", "is_encrypted_sym", "is_encrypted_asym", "put_doc",
   "delete_doc", "get_doc", "get_docs", "create_doc", "get_doc_conflicts",
   "resolve_doc", "sync"]

/-- Embeds the call `self._send_keys()` in the except-branch of
`Soledad._bootstrap`: the class defines no method named `_send_keys` (see
`soledadMethodNames`), so the attribute access raises `AttributeError`. -/
def sendKeysCall (st : SoledadState) : Except PyErr Unit × SoledadState :=
  (Except.error (PyErr.attributeError "_send_keys"), st)

/-- Embeds `Soledad._init_db`: `sqlcipher.open(self.local_db_path,
self._secret, ...)` — reading `self._secret` raises `AttributeError` when it
was never set; otherwise the store opens. -/
def initDb (st : SoledadState) : Except PyErr Unit × SoledadState :=
  match st.secret with
  | none => (Except.error (PyErr.attributeError "_secret"), st)
  | some _ => (Except.ok (), { st with dbOpened := true })

/-- Embeds `Soledad._bootstrap`.  `_init_dirs` and the `GPGWrapper`
construction have no modelled effect.  Then: if `_has_keys()` (exceptions
propagate) is false, try `_retrieve_keys()`, and on any exception fall back
to `_init_keys(); _send_keys()`; finally `_load_keys(); _init_db()`. -/
def bootstrapS (st : SoledadState) : Except PyErr Unit × SoledadState :=
  match hasKeys st with
  | Except.error e => (Except.error e, st)
  | Except.ok true => seqS (loadKeys st) initDb
  | Except.ok false =>
    match retrieveKeys st with
    | (Except.ok _, st1) => seqS (loadKeys st1) initDb
    | (Except.error _, st1) =>
      seqS (seqS (initKeys st1) sendKeysCall) fun st2 => seqS (loadKeys st2) initDb

/-- Embeds `Soledad._hmac_passphrase`: `hmac.new(self._secret,
doc_id).hexdigest()`; the stdlib raises when the key is `None` (which is what
an unset `_secret` would eventually surface as). -/
def hmacPassphrase (st : SoledadState) (docId : String) : Except PyErr String :=
  match st.secret with
  | none => Except.error PyErr.typeError
  | some s => Except.ok (hmacHex s docId)

/-- Embeds `Soledad.encrypt`: `str(self._gpg.encrypt(data, self._fingerprint,
sign=sign, passphrase=passphrase, symmetric=symmetric))`.  Reading
`self._fingerprint` raises `AttributeError` when unset.  With
`symmetric=True` the provider produces a passphrase-keyed symmetric blob,
otherwise an asymmetric blob to the cached fingerprint. -/
def soledadEncrypt (st : SoledadState) (data : String)
    (passphrase : Option String) (symmetric : Bool) : Except PyErr Blob :=
  match st.fingerprint with
  | none => Except.error (PyErr.attributeError "_fingerprint")
  | some fp =>
    Except.ok
      (if symmetric then Blob.sym (passphrase.getD "") data
       else Blob.asym fp data)

/-- Embeds `Soledad.decrypt`: `str(self._gpg.decrypt(data,
passphrase=passphrase))` — the empty string when decryption fails. -/
def soledadDecrypt (st : SoledadState) (b : Blob) (passphrase : Option String) :
    String :=
  (gpgDecrypt (ownedFps st) passphrase b).getD ""

/-- Embeds `Soledad.encrypt_symmetric`: `self.encrypt(data, sign=sign,
passphrase=self._hmac_passphrase(doc_id), symmetric=True)`. -/
def encryptSymmetric (st : SoledadState) (docId data : String) :
    Except PyErr Blob :=
  match hmacPassphrase st docId with
  | Except.error e => Except.error e
  | Except.ok p => soledadEncrypt st data (some p) true

/-- Embeds `Soledad.decrypt_symmetric`: `self.decrypt(data,
passphrase=self._hmac_passphrase(doc_id))`. -/
def decryptSymmetric (st : SoledadState) (docId : String) (b : Blob) :
    Except PyErr String :=
  match hmacPassphrase st docId with
  | Except.error e => Except.error e
  | Except.ok p => Except.ok (soledadDecrypt st b (some p))

/-- Python values carried through the proxy (arguments and results).
`vNone` is Python `None`. -/
inductive PyVal where
  | vNone
  | vInt (n : Int)
  | vStr (s : String)
  | vBool (b : Bool)
deriving DecidableEq, Repr

/-- Python truthiness, used by the worker's `if not attr:` test. -/
def pyTruthy (v : PyVal) : Bool :=
  match v with
  | PyVal.vNone => false
  | PyVal.vInt n => n ≠ 0
  | PyVal.vStr s => s ≠ ""
  | PyVal.vBool b => b

/-- Outcome of invoking a callable attribute of the store: a returned value,
or a raised exception carrying its `args` tuple (Python exceptions expose
`e.args`; the worker's logging reads `e.args[0]`). -/
inductive CallOutcome where
  | ok (v : PyVal)
  | exc (eargs : List String)

/-- An attribute of the underlying store: callable (a method) or a plain
value. -/
inductive Attr where
  | callable (f : List PyVal → CallOutcome)
  | plain (v : PyVal)

/-- The underlying sqlcipher store as the proxy sees it: `getattr(self._db,
mth, None)`, i.e. a name-to-attribute table (spec: an arbitrary document
store whose methods are invocable by name). -/
abbrev DB : Type := String → Option Attr

/-- A pending request `(mth, q, wrargs)` enqueued by `__getattr__`'s proxied
call: the method name, the caller's reply-channel identifier, and the
arguments.  Keyword arguments are folded into `args` (the worker passes both
through unchanged). -/
structure Req where
  id : Nat
  mth : String
  args : List PyVal
deriving DecidableEq, Repr

/-- Observable events of the worker: entry to and exit from an invocation of
an underlying store method (used to state that no two store operations
overlap). -/
inductive Event where
  | enter (id : Nat)
  | leave (id : Nat)
deriving DecidableEq, Repr

/-- Control status of the worker thread. `blockedOnLock` is the absorbing
state reached by `self._lock.acquire()` on the non-reentrant lock the worker
itself still holds; `crashed` is an exception escaping `run` (the logging
statement `e.args[0]` raising `IndexError`); `terminated` is the `break`
followed by `self._stopped.set()`. -/
inductive WStatus where
  | running
  | blockedOnLock
  | terminated
  | crashed
deriving DecidableEq, Repr

/-- State of the `SQLCipherWrapper` worker loop together with its observable
history.  `pending` is the shared FIFO `self._queue` (requests in enqueue
order across all callers); `replies` records, in order, every value `q.put`
delivered to a caller's reply channel; `stoppedFlag` is `self._stopped`. -/
structure WState where
  lockHeld : Bool
  pending : List Req
  replies : List (Nat × PyVal)
  events : List Event
  logs : List String
  status : WStatus
  stoppedFlag : Bool
deriving Repr

/-- Worker state at thread start: lock free, nothing served, `self._stopped`
clear, with the given requests queued in FIFO order. -/
def initWState (reqs : List Req) : WState :=
  { lockHeld := false, pending := reqs, replies := [], events := [],
    logs := [], status := WStatus.running, stoppedFlag := false }

/-- One iteration of the `while True:` body of `SQLCipherWrapper.run`
(the db is already open, so the `if not self._db` sleep is skipped):
acquire the lock (blocking forever if the worker itself still holds it),
dequeue the next request, break on the `"__end_thread"` sentinel, look the
name up on the store (`continue` with the lock still held when absent or
falsy), invoke callables catching exceptions (logging reads `e.args[0]`,
itself raising when the args tuple is empty), fall through to `q.put(res)`
— note `res` stays `None` after a caught exception — and release the lock. -/
def workerStepRun (db : DB) (st : WState) : WState :=
  if st.lockHeld then { st with status := WStatus.blockedOnLock }
  else
    match st.pending with
    | [] => st
    | r :: rest =>
      let st1 := { st with lockHeld := true, pending := rest }
      if r.mth = "__end_thread" then
        { st1 with status := WStatus.terminated, stoppedFlag := true }
      else
        match db r.mth with
        | none =>
          { st1 with logs := st1.logs ++ ["method " ++ r.mth ++ " does not exist"] }
        | some (Attr.callable f) =>
          match f r.args with
          | CallOutcome.ok v =>
            { st1 with lockHeld := false,
                       events := st1.events ++ [Event.enter r.id, Event.leave r.id],
                       replies := st1.replies ++ [(r.id, v)],
                       logs := st1.logs ++ ["returning proxied db call"] }
          | CallOutcome.exc [] =>
            { st1 with status := WStatus.crashed,
                       events := st1.events ++ [Event.enter r.id, Event.leave r.id] }
          | CallOutcome.exc (m :: _) =>
            { st1 with lockHeld := false,
                       events := st1.events ++ [Event.enter r.id, Event.leave r.id],
                       replies := st1.replies ++ [(r.id, PyVal.vNone)],
                       logs := st1.logs ++
                         ["Error on proxied method " ++ r.mth ++ ": " ++ m,
                          "returning proxied db call"] }
        | some (Attr.plain v) =>
          if pyTruthy v then
            { st1 with lockHeld := false,
                       replies := st1.replies ++ [(r.id, v)],
                       logs := st1.logs ++ ["returning proxied db call"] }
          else
            { st1 with logs := st1.logs ++ ["method " ++ r.mth ++ " does not exist"] }

/-- One step of the worker: run a loop iteration while the thread is in its
loop; a blocked, terminated or crashed worker makes no further progress. -/
def workerStep (db : DB) (st : WState) : WState :=
  if st.status = WStatus.running then workerStepRun db st else st

/-- Iterated worker steps. -/
def workerRun (db : DB) : Nat → WState → WState
  | 0, st => st
  | n + 1, st => workerRun db n (workerStep db st)

/-- Python private-name mangling: inside a class body, an identifier with two
leading underscores and at most one trailing underscore is rewritten to
`_ClassName` followed by the identifier.  `startsDunder` checks the two
leading underscores. -/
def startsDunder : List Char → Bool
  | '_' :: '_' :: _ => true
  | _ => false

/-- Trailing double underscore check (such names are exempt from mangling). -/
def endsDunder (cs : List Char) : Bool :=
  startsDunder cs.reverse

/-- The mangled form of an attribute name as Python's compiler rewrites it
inside a class body. -/
def pythonMangle (cls attr : String) : String :=
  if startsDunder attr.data && !endsDunder attr.data then
    "_" ++ cls ++ attr
  else attr

/-- The request `SQLCipherWrapper.close` ends up enqueuing: `self.
__end_thread()` is compiled under name mangling, no such attribute exists on
the wrapper, so `__getattr__` proxies the mangled name to the worker. -/
def closeRequest : Req :=
  { id := 0, mth := pythonMangle "SQLCipherWrapper" "__end_thread", args := [] }

/-- Result delivered for a request the worker serves normally (`q.put(res)`):
the returned value for a successful call, `None` after a caught exception,
the attribute value for a plain attribute, `None` for an absent name (the
worker never reaches `q.put` in that case, the value is a placeholder). -/
def reqResult (db : DB) (r : Req) : PyVal :=
  match db r.mth with
  | some (Attr.callable f) =>
    match f r.args with
    | CallOutcome.ok v => v
    | CallOutcome.exc _ => PyVal.vNone
  | some (Attr.plain v) => v
  | none => PyVal.vNone

/-- A request the worker can serve without incident: not the shutdown
sentinel, its name resolves to a callable on the store, and if the call
raises, the exception carries a message (so the logging statement itself does
not raise). -/
def goodReq (db : DB) (r : Req) : Bool :=
  if r.mth = "__end_thread" then false
  else
    match db r.mth with
    | some (Attr.callable f) =>
      match f r.args with
      | CallOutcome.exc [] => false
      | _ => true
    | _ => false

/-- Enter/leave event trace of serving the given requests in order, one at a
time. -/
def eventsOfReqs : List Req → List Event
  | [] => []
  | r :: rest => Event.enter r.id :: Event.leave r.id :: eventsOfReqs rest

/-- A trace is serial when it is a sequence of immediately matched
enter/leave pairs: every operation finishes before the next one starts. -/
def serialTrace : List Event → Bool
  | [] => true
  | Event.enter i :: Event.leave j :: t => i == j && serialTrace t
  | _ => false

/-- Baseline environment for the concrete scenarios: a fresh identity, empty
keyring and filesystem, no cached material, an unreachable escrow service,
and a fixed randomness stream. -/
def baseState : SoledadState :=
  { userEmail := "user@leap.se", keyring := [], files := [],
    secretPath := "/home/user/.config/leap/soledad/secret.gpg",
    fingerprint := none, secret := none, fpCounter := 0,
    retrieveKeysCalls := 0, genKeypairCalls := 0, genSecretCalls := 0,
    dbOpened := false, remoteOk := false, rand := fun _ => 0 }

/-- READY manager: fingerprint and secret loaded. -/
def readyState : SoledadState :=
  { baseState with keyring := [("user@leap.se", "F")],
                   fingerprint := some "F", secret := some "S" }

/-- C1: for every manager in the READY state (fingerprint and secret loaded)
and for every document id and data string,
`decrypt_symmetric(doc_id, encrypt_symmetric(doc_id, data)) = data`: both
sides derive the same per-document passphrase by HMAC from the loaded secret
and the document id, so the symmetric round-trip through the crypto provider
returns the original data. -/
theorem symmetric_roundtrip (st : SoledadState) (docId data s f : String)
    (hs : st.secret = some s) (hf : st.fingerprint = some f) :
    Except.bind (encryptSymmetric st docId data) (decryptSymmetric st docId) =
      Except.ok data := by
  simp [encryptSymmetric, decryptSymmetric, hmacPassphrase, hs, soledadEncrypt,
        hf, Except.bind, soledadDecrypt, gpgDecrypt]

/-- Witness for C1 at a concrete READY state, document id and payload. -/
theorem symmetric_roundtrip_witness :
    Except.bind (encryptSymmetric readyState "doc-1" "some document bytes")
        (decryptSymmetric readyState "doc-1") =
      Except.ok "some document bytes" :=
  symmetric_roundtrip readyState "doc-1" "some document bytes" "S" "F" rfl rfl

/-- Embeds the tail of `Soledad.__init__` (lines 64-86): `_init_config` runs
first (its outcome is a parameter here); if `soledad_server_url` is truthy,
line 84 references the undefined local name `server_url` and raises
`NameError`; then, when the `initialize` flag is set, line 86 looks up
`self.bootstrap` — the class defines `_bootstrap` but no `bootstrap` (see
`soledadMethodNames`), so the lookup raises `AttributeError`. -/
def soledadInitCtor (initConfigOutcome : Except PyErr Unit)
    (soledadServerUrl : String) (initFlag : Bool) : Except PyErr Unit :=
  match initConfigOutcome with
  | Except.error e => Except.error e
  | Except.ok _ =>
    if soledadServerUrl ≠ "" then Except.error (PyErr.nameError "server_url")
    else if initFlag then
      match (if soledadMethodNames.contains "bootstrap" then some () else none : Option Unit) with
      | some _ => Except.ok ()
      | none => Except.error (PyErr.attributeError "bootstrap")
    else Except.ok ()

/-- C4: constructing a `Soledad` instance with `initialize` left at its
default `True` always raises before the constructor returns, whatever the
outcome of the earlier configuration steps: the constructor invokes
`self.bootstrap()`, but the class defines only `_bootstrap` and no attribute
named `bootstrap`, so the lookup raises `AttributeError` (and every earlier
failure also raises), hence the construct-and-bootstrap path never yields a
usable instance. -/
theorem ctor_bootstrap_missing :
    soledadMethodNames.contains "bootstrap" = false ∧
    (∀ (ic : Except PyErr Unit) (url : String),
      ∃ e, soledadInitCtor ic url true = Except.error e) ∧
    soledadInitCtor (Except.ok ()) "" true =
      Except.error (PyErr.attributeError "bootstrap") := by
  refine ⟨by decide, ?_, rfl⟩
  intro ic url
  cases ic with
  | error e => exact ⟨e, rfl⟩
  | ok u =>
    by_cases h : url = ""
    · subst h
      exact ⟨PyErr.attributeError "bootstrap", rfl⟩
    · exact ⟨PyErr.nameError "server_url", by simp [soledadInitCtor, h]⟩

/-- Modelled from the spec: the stated behavior of `load_secret()` — fail
with `KeyDoesNotExist` when no secret file exists; fail with the distinct
not-encrypted error when the file exists but is not asymmetrically
encrypted; fail with `KeyDoesNotExist` when the blob is encrypted to a
fingerprint different from the cached one; otherwise decrypt and store the
secret in memory. -/
def loadSecretSpec (st : SoledadState) : Except PyErr Unit × SoledadState :=
  match fsRead st.files st.secretPath with
  | none => (Except.error PyErr.keyDoesNotExist, st)
  | some (Blob.asym fp payload) =>
    if some fp ≠ st.fingerprint then (Except.error PyErr.keyDoesNotExist, st)
    else (Except.ok (), { st with secret := some payload })
  | some _ => (Except.error PyErr.documentNotEncrypted, st)

/-- C6: for a manager with a cached fingerprint whose key is held in the
keyring, `_load_secret` behaves exactly as the spec's case analysis
(`loadSecretSpec`): `KeyDoesNotExist` when no file exists,
`DocumentNotEncrypted` when the file is not asymmetrically encrypted,
`KeyDoesNotExist` when the blob is encrypted to a foreign fingerprint, and
otherwise it decrypts the blob and stores the secret in memory. -/
theorem load_secret_cases (st : SoledadState) (f : String)
    (hf : st.fingerprint = some f)
    (howned : f ∈ ownedFps st) :
    loadSecret st = loadSecretSpec st := by
  unfold loadSecret loadSecretSpec hasSecret
  cases hread : fsRead st.files st.secretPath with
  | none => simp
  | some b =>
    cases b with
    | plain s => simp
    | sym p payload => simp
    | asym fp payload =>
      rw [hf]
      by_cases hfp : fp = f
      · subst hfp
        simp [hread, gpgDecrypt, howned]
      · simp [hfp]

/-- Concrete state for the C6 witness: cached fingerprint `F`, key held, and
an on-disk blob encrypted to `F`. -/
def loadableState : SoledadState :=
  { baseState with keyring := [("user@leap.se", "F")],
                   fingerprint := some "F",
                   files := [(baseState.secretPath, Blob.asym "F" "the-secret")] }

/-- Witness for C6 at a concrete loadable state. -/
theorem load_secret_cases_witness :
    loadSecret loadableState = loadSecretSpec loadableState :=
  load_secret_cases loadableState "F" rfl (by decide)

/-- States the claim's antecedent for C5, from the spec's words: a valid
encrypted secret blob exists on disk — the file is present, asymmetrically
encrypted, and encrypted to the cached fingerprint. -/
def validSecretBlob (st : SoledadState) : Bool :=
  match fsRead st.files st.secretPath, st.fingerprint with
  | some (Blob.asym fp _), some myFp => fp == myFp
  | _, _ => false

/-- State with a plaintext file sitting at the secret path (and a cached
fingerprint): no valid encrypted secret blob exists here. -/
def plainFileState : SoledadState :=
  { baseState with keyring := [("user@leap.se", "F")],
                   fingerprint := some "F",
                   files := [(baseState.secretPath, Blob.plain "not encrypted")] }

/-- Counterexample to C5 as stated: at `plainFileState` no valid encrypted
secret blob exists, so the claim's otherwise-branch predicts that
`generate_secret` draws a fresh secret and persists it; instead `_gen_secret`
propagates the `DocumentNotEncrypted` raised by `_has_secret`, draws no
secret and writes nothing. -/
theorem gen_secret_invalid_file_counterexample :
    validSecretBlob plainFileState = false ∧
    (genSecret plainFileState).1 = Except.error PyErr.documentNotEncrypted ∧
    (genSecret plainFileState).1 ≠ Except.ok () ∧
    (genSecret plainFileState).2.files = plainFileState.files ∧
    (genSecret plainFileState).2.secret = none := by
  refine ⟨by decide, rfl, fun h => Except.noConfusion h, by decide, rfl⟩

/-- Classification used by `_has_secret`: whether the file content is
asymmetrically encrypted (`is_encrypted_asym`). -/
def isAsymBlob : Blob → Bool
  | Blob.asym _ _ => true
  | _ => false

/-- C5 amended: if a valid encrypted secret blob already exists on disk,
`generate_secret` raises `KeyAlreadyExists` and only the call counter
changes (the blob is untouched, byte for byte); if no secret file exists at
all, it draws a fresh random secret, encrypts it to the cached fingerprint
and persists it; and if a file exists but is not a valid blob, it propagates
the corresponding integrity error — `DocumentNotEncrypted` when the file is
not asymmetrically encrypted, `KeyDoesNotExist` when it is encrypted to a
foreign fingerprint — drawing and persisting nothing (again only the call
counter changes). -/
theorem gen_secret_amended (st : SoledadState) (f : String)
    (hf : st.fingerprint = some f) :
    (validSecretBlob st = true →
      genSecret st =
        (Except.error PyErr.keyAlreadyExists,
         { st with genSecretCalls := st.genSecretCalls + 1 })) ∧
    (fsRead st.files st.secretPath = none →
      genSecret st =
        (Except.ok (),
         { st with genSecretCalls := st.genSecretCalls + 1,
                   secret := some (freshSecretStr st.rand),
                   files := fsWrite st.files st.secretPath
                     (Blob.asym f (freshSecretStr st.rand)) })) ∧
    (∀ b, fsRead st.files st.secretPath = some b → isAsymBlob b = false →
      genSecret st =
        (Except.error PyErr.documentNotEncrypted,
         { st with genSecretCalls := st.genSecretCalls + 1 })) ∧
    (∀ fp payload,
      fsRead st.files st.secretPath = some (Blob.asym fp payload) → fp ≠ f →
      genSecret st =
        (Except.error PyErr.keyDoesNotExist,
         { st with genSecretCalls := st.genSecretCalls + 1 })) := by
  refine ⟨?_, ?_, ?_, ?_⟩
  · intro hv
    unfold validSecretBlob at hv
    cases hread : fsRead st.files st.secretPath with
    | none => rw [hread] at hv; simp at hv
    | some b =>
      cases b with
      | plain s => rw [hread] at hv; simp at hv
      | sym p payload => rw [hread] at hv; simp at hv
      | asym fp payload =>
        rw [hread, hf] at hv
        simp only [beq_iff_eq] at hv
        subst hv
        simp [genSecret, hasSecret, hread, hf]
  · intro hread
    simp [genSecret, hasSecret, hread, hf]
  · intro b hread hb
    cases b with
    | plain s => simp [genSecret, hasSecret, hread]
    | sym p payload => simp [genSecret, hasSecret, hread]
    | asym fp payload => simp [isAsymBlob] at hb
  · intro fp payload hread hfp
    simp [genSecret, hasSecret, hread, hf, hfp]

/-- State with a valid encrypted secret blob on disk (for the C5 witness). -/
def validBlobState : SoledadState :=
  { baseState with keyring := [("user@leap.se", "F")],
                   fingerprint := some "F",
                   files := [(baseState.secretPath, Blob.asym "F" "old-secret")] }

/-- Witness for the amended C5: with a valid blob on disk, `generate_secret`
raises `KeyAlreadyExists` and leaves the filesystem untouched. -/
theorem gen_secret_amended_witness :
    genSecret validBlobState =
      (Except.error PyErr.keyAlreadyExists,
       { validBlobState with genSecretCalls := validBlobState.genSecretCalls + 1 }) :=
  (gen_secret_amended validBlobState "F" rfl).1 (by decide)

/-- Fresh Soledad instance whose identity already has valid local material
on disk: a keypair in the keyring and a secret blob encrypted to its
fingerprint.  As on any fresh instance, `_fingerprint` is not yet set. -/
def localMaterialState : SoledadState :=
  { baseState with keyring := [("user@leap.se", "F")],
                   files := [(baseState.secretPath, Blob.asym "F" "escrowed")] }

/-- C3 fails on the code: with valid pre-existing local material,
`_bootstrap` calls `_has_keys` → `_has_secret`, which dereferences
`self._fingerprint` before `_load_openpgp_keypair` has ever set it, so
bootstrap raises `AttributeError` instead of reaching READY.  (Zero
remote-fetch and zero generation calls do occur — but only because bootstrap
crashes first: the secret is never loaded and the database never opened.) -/
theorem bootstrap_local_material_crashes :
    localMaterialState.fingerprint = none ∧
    bootstrapS localMaterialState =
      (Except.error (PyErr.attributeError "_fingerprint"), localMaterialState) ∧
    (bootstrapS localMaterialState).2.retrieveKeysCalls = 0 ∧
    (bootstrapS localMaterialState).2.genKeypairCalls = 0 ∧
    (bootstrapS localMaterialState).2.genSecretCalls = 0 ∧
    (bootstrapS localMaterialState).2.secret = none ∧
    (bootstrapS localMaterialState).2.dbOpened = false :=
  ⟨rfl, rfl, rfl, rfl, rfl, rfl, rfl⟩

/-- C7 fails on the code: with no local key material and a failing remote
retrieval, `_bootstrap` falls back to `_init_keys()` — which does generate
the keypair and the secret and loads them — but the following
`self._send_keys()` call raises `AttributeError`, because the class defines
no method named `_send_keys`.  Nothing is published, `_load_keys`/`_init_db`
are never reached, and bootstrap aborts instead of completing. -/
theorem bootstrap_fallback_send_keys_missing :
    soledadMethodNames.contains "_send_keys" = false ∧
    (bootstrapS baseState).1 = Except.error (PyErr.attributeError "_send_keys") ∧
    (bootstrapS baseState).2.retrieveKeysCalls = 1 ∧
    (bootstrapS baseState).2.genKeypairCalls = 1 ∧
    (bootstrapS baseState).2.genSecretCalls = 1 ∧
    (bootstrapS baseState).2.fingerprint = some (freshFp 0) ∧
    (bootstrapS baseState).2.secret = some (freshSecretStr baseState.rand) ∧
    (bootstrapS baseState).2.files =
      [(baseState.secretPath, Blob.asym (freshFp 0) (freshSecretStr baseState.rand))] ∧
    (bootstrapS baseState).2.dbOpened = false :=
  ⟨by decide, rfl, rfl, rfl, rfl, rfl, rfl, rfl, rfl⟩

/-- A worker that is no longer in its loop (blocked on the lock, crashed, or
terminated) makes no further progress. -/
theorem workerStep_not_running (db : DB) (st : WState)
    (h : st.status ≠ WStatus.running) : workerStep db st = st := by
  simp [workerStep, h]

/-- Iterating a worker that is no longer in its loop changes nothing. -/
theorem workerRun_not_running (db : DB) (n : Nat) (st : WState)
    (h : st.status ≠ WStatus.running) : workerRun db n st = st := by
  induction n with
  | zero => rfl
  | succ n ih =>
    show workerRun db n (workerStep db st) = st
    rw [workerStep_not_running db st h]
    exact ih

/-- Loop iteration on a request whose name is not an attribute of the store:
the worker logs the error and `continue`s while still holding the lock; no
reply is posted and no store operation runs. -/
theorem workerStep_unknown (db : DB) (st : WState) (r : Req) (rest : List Req)
    (h1 : st.status = WStatus.running) (h2 : st.lockHeld = false)
    (h3 : st.pending = r :: rest) (h4 : r.mth ≠ "__end_thread")
    (h5 : db r.mth = none) :
    workerStep db st =
      { st with lockHeld := true, pending := rest,
                logs := st.logs ++ ["method " ++ r.mth ++ " does not exist"] } := by
  simp [workerStep, h1, workerStepRun, h2, h3, h4, h5]

/-- Loop iteration while the worker itself still holds the non-reentrant
lock: `self._lock.acquire()` blocks forever. -/
theorem workerStep_lock_deadlock (db : DB) (st : WState)
    (h1 : st.status = WStatus.running) (h2 : st.lockHeld = true) :
    workerStep db st = { st with status := WStatus.blockedOnLock } := by
  simp [workerStep, h1, workerStepRun, h2]

/-- Worker state after dequeuing a request whose method name is absent from
the store: the lock is retained, the request is consumed, only the error log
grew. -/
def unknownStuckState (r : Req) (rest : List Req) (stat : WStatus) : WState :=
  { lockHeld := true, pending := rest, replies := [], events := [],
    logs := ["method " ++ r.mth ++ " does not exist"], status := stat,
    stoppedFlag := false }

/-- After dequeuing one request whose method name is absent from the store,
the worker keeps the lock and deadlocks on the next acquire: forever after,
no reply is posted, no store operation runs, the stopped flag is never set
and the thread never terminates. -/
theorem worker_unknown_stuck (db : DB) (r : Req) (rest : List Req)
    (h4 : r.mth ≠ "__end_thread") (h5 : db r.mth = none) (n : Nat) :
    (workerRun db n (initWState (r :: rest))).replies = [] ∧
    (workerRun db n (initWState (r :: rest))).events = [] ∧
    (workerRun db n (initWState (r :: rest))).stoppedFlag = false ∧
    (workerRun db n (initWState (r :: rest))).status ≠ WStatus.terminated ∧
    (1 ≤ n → (workerRun db n (initWState (r :: rest))).lockHeld = true) ∧
    (2 ≤ n →
      (workerRun db n (initWState (r :: rest))).status = WStatus.blockedOnLock) := by
  have hstep1 : workerStep db (initWState (r :: rest)) =
      unknownStuckState r rest WStatus.running :=
    workerStep_unknown db (initWState (r :: rest)) r rest rfl rfl rfl h4 h5
  have hstep2 : workerStep db (unknownStuckState r rest WStatus.running) =
      unknownStuckState r rest WStatus.blockedOnLock :=
    workerStep_lock_deadlock db _ rfl rfl
  match n with
  | 0 => exact ⟨rfl, rfl, rfl, fun h => WStatus.noConfusion h,
                fun h => absurd h (by omega), fun h => absurd h (by omega)⟩
  | 1 =>
    have hrun1 : workerRun db 1 (initWState (r :: rest)) =
        unknownStuckState r rest WStatus.running := hstep1
    rw [hrun1]
    exact ⟨rfl, rfl, rfl, fun h => WStatus.noConfusion h, fun _ => rfl,
           fun h => absurd h (by omega)⟩
  | (m + 2) =>
    have hrun : workerRun db (m + 2) (initWState (r :: rest)) =
        unknownStuckState r rest WStatus.blockedOnLock := by
      show workerRun db (m + 1) (workerStep db (initWState (r :: rest))) = _
      rw [hstep1]
      show workerRun db m (workerStep db (unknownStuckState r rest WStatus.running)) = _
      rw [hstep2]
      exact workerRun_not_running db m _ (fun h => WStatus.noConfusion h)
    rw [hrun]
    exact ⟨rfl, rfl, rfl, fun h => WStatus.noConfusion h, fun _ => rfl,
           fun _ => rfl⟩

/-- C10: whenever the worker dequeues a request whose method name is not an
attribute of the underlying store, the `continue` skips
`self._lock.release()`, so the worker retains the mutual-exclusion lock and
blocks forever re-acquiring the non-reentrant lock on the next iteration:
after that one request, no reply is ever posted, no store operation ever
runs, the stopped flag is never set and the thread can never be
terminated. -/
theorem unknown_method_deadlocks_worker (db : DB) (r : Req) (rest : List Req)
    (h4 : r.mth ≠ "__end_thread") (h5 : db r.mth = none) (n : Nat) :
    (workerRun db n (initWState (r :: rest))).replies = [] ∧
    (workerRun db n (initWState (r :: rest))).events = [] ∧
    (workerRun db n (initWState (r :: rest))).stoppedFlag = false ∧
    (workerRun db n (initWState (r :: rest))).status ≠ WStatus.terminated ∧
    (1 ≤ n → (workerRun db n (initWState (r :: rest))).lockHeld = true) ∧
    (2 ≤ n →
      (workerRun db n (initWState (r :: rest))).status = WStatus.blockedOnLock) :=
  worker_unknown_stuck db r rest h4 h5 n

/-- Concrete store stub: a u1db-style store exposing `put_doc`, with no
other attribute (in particular neither `no_such_method` nor the mangled
`_SQLCipherWrapper__end_thread`). -/
def stubDb : DB := fun s =>
  if s = "put_doc" then
    some (Attr.callable fun _ => CallOutcome.ok (PyVal.vStr "doc-rev"))
  else none

/-- Request with a method name the store does not have. -/
def unknownReq : Req := { id := 3, mth := "no_such_method", args := [] }

/-- Witness for C10 at a concrete store, queue and step count. -/
theorem unknown_method_deadlocks_worker_witness :
    (workerRun stubDb 5 (initWState [unknownReq, { id := 4, mth := "put_doc", args := [] }])).replies = [] ∧
    (workerRun stubDb 5 (initWState [unknownReq, { id := 4, mth := "put_doc", args := [] }])).events = [] ∧
    (workerRun stubDb 5 (initWState [unknownReq, { id := 4, mth := "put_doc", args := [] }])).stoppedFlag = false ∧
    (workerRun stubDb 5 (initWState [unknownReq, { id := 4, mth := "put_doc", args := [] }])).status ≠ WStatus.terminated ∧
    (1 ≤ 5 → (workerRun stubDb 5 (initWState [unknownReq, { id := 4, mth := "put_doc", args := [] }])).lockHeld = true) ∧
    (2 ≤ 5 →
      (workerRun stubDb 5 (initWState [unknownReq, { id := 4, mth := "put_doc", args := [] }])).status = WStatus.blockedOnLock) :=
  unknown_method_deadlocks_worker stubDb unknownReq
    [{ id := 4, mth := "put_doc", args := [] }] (by decide) rfl 5

/-- C8 fails on the code: `close()` calls `self.__end_thread()`, which
Python name-mangles to `_SQLCipherWrapper__end_thread`; no such attribute
exists on the wrapper, so `__getattr__` proxies that mangled name to the
worker as an ordinary request.  The worker's sentinel comparison
`mth == "__end_thread"` therefore never matches; the store has no such
attribute either, so the worker takes the unknown-method branch, keeps the
lock and deadlocks.  The processing loop never exits, `self._stopped` is
never set, and `close()` itself blocks forever on its reply channel (its
reply list stays empty), so close never completes. -/
theorem close_never_completes :
    pythonMangle "SQLCipherWrapper" "__end_thread" =
      "_SQLCipherWrapper__end_thread" ∧
    pythonMangle "SQLCipherWrapper" "__end_thread" ≠ "__end_thread" ∧
    ∀ n, (workerRun stubDb n (initWState [closeRequest])).stoppedFlag = false ∧
         (workerRun stubDb n (initWState [closeRequest])).status ≠ WStatus.terminated ∧
         (workerRun stubDb n (initWState [closeRequest])).replies = [] := by
  refine ⟨by decide, by decide, fun n => ?_⟩
  have h := worker_unknown_stuck stubDb closeRequest [] (by decide) rfl n
  exact ⟨h.2.2.1, h.2.2.2.1, h.1⟩

/-- Loop iteration on a well-served request (name resolves to a callable on
the store; a raised exception carries a message): the request is consumed,
exactly one store operation runs (enter/leave appended), exactly one reply
is posted, and the worker releases the lock and stays in its loop. -/
theorem workerStep_good (db : DB) (st : WState) (r : Req) (rest : List Req)
    (h1 : st.status = WStatus.running) (h2 : st.lockHeld = false)
    (h3 : st.pending = r :: rest) (hg : goodReq db r = true) :
    (workerStep db st).status = WStatus.running ∧
    (workerStep db st).lockHeld = false ∧
    (workerStep db st).pending = rest ∧
    (workerStep db st).events =
      st.events ++ [Event.enter r.id, Event.leave r.id] ∧
    (workerStep db st).replies = st.replies ++ [(r.id, reqResult db r)] := by
  by_cases h4 : r.mth = "__end_thread"
  · simp [goodReq, h4] at hg
  · cases hdb : db r.mth with
    | none => simp [goodReq, h4, hdb] at hg
    | some a =>
      cases a with
      | plain v => simp [goodReq, h4, hdb] at hg
      | callable f =>
        cases hout : f r.args with
        | ok v =>
          obtain ⟨lh, pend, rep, ev, lg, stat, stp⟩ := st
          simp only at h1 h2 h3
          subst h1; subst h2; subst h3
          simp [workerStep, workerStepRun, h4, hdb, hout, reqResult]
        | exc eargs =>
          cases eargs with
          | nil => simp [goodReq, h4, hdb, hout] at hg
          | cons m ms =>
            obtain ⟨lh, pend, rep, ev, lg, stat, stp⟩ := st
            simp only at h1 h2 h3
            subst h1; subst h2; subst h3
            simp [workerStep, workerStepRun, h4, hdb, hout, reqResult]

/-- When every queued request is well served, running the worker for one
step per request consumes the whole queue in order: the event trace extends
by the enter/leave pairs of the requests in FIFO order and the replies
extend by one reply per request, in the same order. -/
theorem workerRun_fifo (db : DB) :
    ∀ (reqs : List Req) (st : WState),
      st.status = WStatus.running → st.lockHeld = false → st.pending = reqs →
      (∀ r ∈ reqs, goodReq db r = true) →
      (workerRun db reqs.length st).pending = [] ∧
      (workerRun db reqs.length st).lockHeld = false ∧
      (workerRun db reqs.length st).status = WStatus.running ∧
      (workerRun db reqs.length st).events = st.events ++ eventsOfReqs reqs ∧
      (workerRun db reqs.length st).replies =
        st.replies ++ reqs.map (fun r => (r.id, reqResult db r)) := by
  intro reqs
  induction reqs with
  | nil =>
    intro st h1 h2 h3 hg
    exact ⟨h3, h2, h1, by simp [workerRun, eventsOfReqs], by simp [workerRun]⟩
  | cons r rest ih =>
    intro st h1 h2 h3 hg
    obtain ⟨g1, g2, g3, g4, g5⟩ :=
      workerStep_good db st r rest h1 h2 h3 (hg r (List.mem_cons_self r rest))
    have hrun : workerRun db (r :: rest).length st =
        workerRun db rest.length (workerStep db st) := rfl
    obtain ⟨p1, p2, p3, p4, p5⟩ :=
      ih (workerStep db st) g1 g2 g3
        (fun q hq => hg q (List.mem_cons_of_mem r hq))
    rw [g4] at p4
    rw [g5] at p5
    rw [hrun]
    refine ⟨p1, p2, p3, ?_, ?_⟩
    · rw [p4]
      simp [eventsOfReqs, List.append_assoc]
    · rw [p5]
      simp [List.append_assoc]

/-- Serving requests one after the other yields a serial trace: each store
operation finishes before the next begins. -/
theorem serialTrace_eventsOfReqs (reqs : List Req) :
    serialTrace (eventsOfReqs reqs) = true := by
  induction reqs with
  | nil => rfl
  | cons r rest ih => simp [eventsOfReqs, serialTrace, ih]

/-- C2: for any requests enqueued (in FIFO order, across all caller
threads), as long as each names a method of the store (and no underlying
exception has an empty args tuple), the single worker serves them strictly
one at a time — the event trace is exactly the enter/leave pairs of the
requests in enqueue order, hence serial with no overlap — and each caller
receives its reply in that same FIFO order. -/
theorem proxied_store_ops_serial_fifo (db : DB) (reqs : List Req)
    (hg : ∀ r ∈ reqs, goodReq db r = true) :
    (workerRun db reqs.length (initWState reqs)).events = eventsOfReqs reqs ∧
    serialTrace ((workerRun db reqs.length (initWState reqs)).events) = true ∧
    (workerRun db reqs.length (initWState reqs)).replies =
      reqs.map (fun r => (r.id, reqResult db r)) ∧
    (workerRun db reqs.length (initWState reqs)).pending = [] := by
  obtain ⟨p1, p2, p3, p4, p5⟩ :=
    workerRun_fifo db reqs (initWState reqs) rfl rfl rfl hg
  have hev : (workerRun db reqs.length (initWState reqs)).events =
      eventsOfReqs reqs := by
    rw [p4]; simp [initWState]
  have hrep : (workerRun db reqs.length (initWState reqs)).replies =
      reqs.map (fun r => (r.id, reqResult db r)) := by
    rw [p5]; simp [initWState]
  refine ⟨hev, ?_, hrep, p1⟩
  rw [hev]
  exact serialTrace_eventsOfReqs reqs

/-- Store stub for the C2 witness: `put_doc` returns a revision, `get_doc`
raises an exception carrying a message. -/
def fifoDb : DB := fun s =>
  if s = "put_doc" then
    some (Attr.callable fun _ => CallOutcome.ok (PyVal.vStr "rev-1"))
  else if s = "get_doc" then
    some (Attr.callable fun _ => CallOutcome.exc ["document not found"])
  else none

/-- Three requests from (possibly) different callers, in enqueue order. -/
def fifoReqs : List Req :=
  [{ id := 1, mth := "put_doc", args := [] },
   { id := 2, mth := "get_doc", args := [PyVal.vStr "doc-7"] },
   { id := 3, mth := "put_doc", args := [PyVal.vInt 7] }]

/-- Witness for C2 at a concrete store and request queue. -/
theorem proxied_store_ops_serial_fifo_witness :
    (workerRun fifoDb fifoReqs.length (initWState fifoReqs)).events =
      eventsOfReqs fifoReqs ∧
    serialTrace ((workerRun fifoDb fifoReqs.length (initWState fifoReqs)).events) = true ∧
    (workerRun fifoDb fifoReqs.length (initWState fifoReqs)).replies =
      fifoReqs.map (fun r => (r.id, reqResult fifoDb r)) ∧
    (workerRun fifoDb fifoReqs.length (initWState fifoReqs)).pending = [] :=
  proxied_store_ops_serial_fifo fifoDb fifoReqs (by decide)

/-- C9 amended: when a proxied request's method is found and callable on the
store and the underlying call raises an exception (carrying a message), the
worker catches it and logs it — but because execution then falls through to
`q.put(res)` with `res` still `None`, a `None` reply IS posted on that
request's reply channel, so the blocked caller receives `None` (no result
value, but a reply) and unblocks. -/
theorem worker_exception_replies_none (db : DB) (st : WState) (r : Req)
    (rest : List Req) (f : List PyVal → CallOutcome) (m : String)
    (ms : List String)
    (h1 : st.status = WStatus.running) (h2 : st.lockHeld = false)
    (h3 : st.pending = r :: rest) (h4 : r.mth ≠ "__end_thread")
    (h5 : db r.mth = some (Attr.callable f))
    (h6 : f r.args = CallOutcome.exc (m :: ms)) :
    (workerStep db st).replies = st.replies ++ [(r.id, PyVal.vNone)] ∧
    (workerStep db st).logs =
      st.logs ++ ["Error on proxied method " ++ r.mth ++ ": " ++ m,
                  "returning proxied db call"] ∧
    (workerStep db st).status = WStatus.running ∧
    (workerStep db st).lockHeld = false ∧
    (workerStep db st).pending = rest := by
  obtain ⟨lh, pend, rep, ev, lg, stat, stp⟩ := st
  simp only at h1 h2 h3
  subst h1; subst h2; subst h3
  simp [workerStep, workerStepRun, h4, h5, h6]

/-- Store stub whose `delete_doc` raises an exception with message
`boom`. -/
def raisingCall : List PyVal → CallOutcome := fun _ => CallOutcome.exc ["boom"]

/-- Store exposing only the raising `delete_doc`. -/
def raisingDb : DB := fun s =>
  if s = "delete_doc" then some (Attr.callable raisingCall) else none

/-- Request that will hit the raising method. -/
def raisingReq : Req := { id := 7, mth := "delete_doc", args := [] }

/-- Counterexample to C9 as stated: the claim says that when the underlying
call raises, no value is produced on the request's reply channel and the
blocked caller never receives a reply; in fact the worker falls through to
`q.put(res)` with `res = None`, so the reply channel does receive a value
(`None`) for that request. -/
theorem worker_exception_reply_counterexample :
    (workerStep raisingDb (initWState [raisingReq])).replies =
      [(7, PyVal.vNone)] ∧
    (workerStep raisingDb (initWState [raisingReq])).replies ≠ [] := by
  refine ⟨by decide, by decide⟩

/-- Witness for the amended C9 at a concrete raising store. -/
theorem worker_exception_replies_none_witness :
    (workerStep raisingDb (initWState [raisingReq])).replies =
      (initWState [raisingReq]).replies ++ [(7, PyVal.vNone)] ∧
    (workerStep raisingDb (initWState [raisingReq])).logs =
      (initWState [raisingReq]).logs ++
        ["Error on proxied method delete_doc: boom",
         "returning proxied db call"] ∧
    (workerStep raisingDb (initWState [raisingReq])).status = WStatus.running ∧
    (workerStep raisingDb (initWState [raisingReq])).lockHeld = false ∧
    (workerStep raisingDb (initWState [raisingReq])).pending = [] :=
  worker_exception_replies_none raisingDb (initWState [raisingReq]) raisingReq
    [] raisingCall "boom" [] rfl rfl rfl (by decide) rfl rfl
